import Mathlib

/-!
Verification of the progressive-tax computation of the Freelancer repository.

The sole computational core of the repository is the function
`calculateProgressiveTax` (src/unnamed/part_000, a TypeScript module).  It is a
pure function on JavaScript numbers.  We embed it shallowly in two layers:

* an exact-arithmetic layer over `ℚ` (namespace `Tax`), the normalized domain in
  which every numeric input is an actual (finite) number.  Over `ℚ` the
  JavaScript idiom `x || 0` is the identity (the only falsy number is `0`, and
  `0 || 0 = 0`), `isFinite` is always true, and `-0` coincides with `0`;

* a JavaScript-number layer (namespace `TaxJS`) in which a number is `NaN`,
  `+Infinity`, `-Infinity` or a finite rational, and input fields may be absent
  (`Option`).  This layer is used for the claims about defensive coercion of
  absent / non-finite inputs.

JavaScript's `Array.prototype.sort` is stable (ES2019); the source comparator
`(a, b) => a.income_bracket_min - b.income_bracket_min` induces, on finite
numbers, the total preorder "less-or-equal by income_bracket_min".  For a total
preorder the stable sorted order is unique, and `List.insertionSort` (which is
stable) produces exactly it, so the sort is modelled by insertion sort.
-/

namespace Tax

/-- Bracket record of the source: `income_bracket_max = none` means no upper
bound, `tax_rate` is a percentage. -/
structure TaxBracket where
  income_bracket_min : ℚ
  income_bracket_max : Option ℚ
  tax_rate : ℚ
deriving DecidableEq, Repr

/-- Input record of `calculateProgressiveTax` over the normalized domain: all
numeric fields are genuine rationals.  The optional pension rate is normalized
by `|| 0` in the source, hence a plain `ℚ` here; the optional cap is used via
`?? Infinity`, hence kept as an `Option`. -/
structure TaxComputationInput where
  grossIncome : ℚ
  additionalDeductions : ℚ
  standardDeduction : ℚ
  brackets : List TaxBracket
  statutoryPensionRatePercent : ℚ
  statutoryPensionAnnualCap : Option ℚ
deriving DecidableEq, Repr

/-- One entry of the per-bracket breakdown produced by the source loop. -/
structure BreakdownEntry where
  income_bracket_min : ℚ
  income_bracket_max : Option ℚ
  tax_rate : ℚ
  taxable_at_this_bracket : ℚ
  tax_at_this_bracket : ℚ
deriving DecidableEq, Repr

/-- Result record of `calculateProgressiveTax`.  The source always assigns the
optional `statutoryPension` field, so it is plain here. -/
structure TaxComputationResult where
  deductions : ℚ
  taxableIncome : ℚ
  taxOwed : ℚ
  effectiveRate : ℚ
  marginalRate : ℚ
  statutoryPension : ℚ
  breakdown : List BreakdownEntry
  deductionsCapped : Bool
  uncappedDeductions : ℚ
deriving DecidableEq, Repr

/-- Source lines: pensionRate = (rate || 0)/100, rawPension = gross * pensionRate,
pension = Math.min(isFinite(rawPension) ? rawPension : 0, cap ?? Infinity).
Over `ℚ` the product is always finite, so the `isFinite` guard is the identity,
and `Math.min(x, Infinity) = x` when no cap is supplied. -/
def pension (input : TaxComputationInput) : ℚ :=
  match input.statutoryPensionAnnualCap with
  | none => input.grossIncome * (input.statutoryPensionRatePercent / 100)
  | some cap => min (input.grossIncome * (input.statutoryPensionRatePercent / 100)) cap

/-- Source: uncappedDeductions = Math.max(0, (standardDeduction || 0) +
(additionalDeductions || 0) + (pension || 0)); over `ℚ` each `|| 0` is the
identity. -/
def uncappedDeductions (input : TaxComputationInput) : ℚ :=
  max 0 (input.standardDeduction + input.additionalDeductions + pension input)

/-- Source: totalDeductions = Math.min(grossIncome || 0, uncappedDeductions). -/
def totalDeductions (input : TaxComputationInput) : ℚ :=
  min input.grossIncome (uncappedDeductions input)

/-- Source: taxableIncome = Math.max(0, (grossIncome || 0) - totalDeductions). -/
def taxableIncome (input : TaxComputationInput) : ℚ :=
  max 0 (input.grossIncome - totalDeductions input)

/-- Order induced by the source comparator (a, b) => a.income_bracket_min -
b.income_bracket_min on finite numbers. -/
def bracketLE (a b : TaxBracket) : Prop :=
  a.income_bracket_min ≤ b.income_bracket_min

instance : DecidableRel bracketLE :=
  fun a b => inferInstanceAs (Decidable (a.income_bracket_min ≤ b.income_bracket_min))

instance : IsTotal TaxBracket bracketLE :=
  ⟨fun a b => le_total a.income_bracket_min b.income_bracket_min⟩

instance : IsTrans TaxBracket bracketLE :=
  ⟨fun _ _ _ => le_trans⟩

/-- Source: const sorted = [...input.brackets].sort((a, b) =>
a.income_bracket_min - b.income_bracket_min).  Stable sort by min ascending;
modelled by the (stable) insertion sort for the total preorder bracketLE. -/
def sortBrackets (l : List TaxBracket) : List TaxBracket :=
  List.insertionSort bracketLE l

/-- Source: taxableAtThisBracket = Math.min(taxableIncome - bracketMin,
bracketMax - bracketMin) where bracketMax = income_bracket_max ?? Infinity;
when the bracket is unbounded the minimum with Infinity is the first argument. -/
def sliceAt (ti : ℚ) (b : TaxBracket) : ℚ :=
  match b.income_bracket_max with
  | none => ti - b.income_bracket_min
  | some mx => min (ti - b.income_bracket_min) (mx - b.income_bracket_min)

/-- Mutable state of the source loop: taxOwed, marginalRate and the growing
breakdown array. -/
structure LoopState where
  taxOwed : ℚ
  marginalRate : ℚ
  breakdown : List BreakdownEntry
deriving DecidableEq, Repr

/-- The breakdown entry pushed by the source loop for a bracket with a positive
taxable slice. -/
def mkEntry (ti : ℚ) (b : TaxBracket) : BreakdownEntry :=
  { income_bracket_min := b.income_bracket_min
    income_bracket_max := b.income_bracket_max
    tax_rate := b.tax_rate
    taxable_at_this_bracket := sliceAt ti b
    tax_at_this_bracket := sliceAt ti b * (b.tax_rate / 100) }

/-- One iteration of the source loop body over a bracket. -/
def bracketStep (ti : ℚ) (st : LoopState) (b : TaxBracket) : LoopState :=
  if ti > b.income_bracket_min then
    if 0 < sliceAt ti b then
      { taxOwed := st.taxOwed + sliceAt ti b * (b.tax_rate / 100)
        marginalRate := b.tax_rate
        breakdown := st.breakdown ++ [mkEntry ti b] }
    else st
  else st

/-- The source loop, folded over the sorted brackets starting from
taxOwed = 0, marginalRate = 0, breakdown = []. -/
def loopState (input : TaxComputationInput) : LoopState :=
  (sortBrackets input.brackets).foldl (bracketStep (taxableIncome input)) ⟨0, 0, []⟩

/-- The record returned by the source, assembled from the derived quantities
and the final loop state; effectiveRate = taxOwed / grossIncome * 100 when the
gross income is positive and 0 otherwise, and statutoryPension is the pension
(over ℚ, pension || 0 is the identity). -/
def assembleResult (input : TaxComputationInput) (st : LoopState) : TaxComputationResult :=
  { deductions := totalDeductions input
    taxableIncome := taxableIncome input
    taxOwed := st.taxOwed
    effectiveRate := if input.grossIncome > 0 then st.taxOwed / input.grossIncome * 100 else 0
    marginalRate := st.marginalRate
    statutoryPension := pension input
    breakdown := st.breakdown
    deductionsCapped := decide (totalDeductions input < uncappedDeductions input)
    uncappedDeductions := uncappedDeductions input }

/-- Shallow embedding of calculateProgressiveTax (src/unnamed/part_000) over the
normalized exact-arithmetic domain. -/
def calculateProgressiveTax (input : TaxComputationInput) : TaxComputationResult :=
  assembleResult input (loopState input)

/-- A bracket receives a strictly positive taxable slice in the source loop:
the guard taxableIncome > bracketMin passes and taxableAtThisBracket > 0. -/
def receivesSlice (input : TaxComputationInput) (b : TaxBracket) : Prop :=
  taxableIncome input > b.income_bracket_min ∧ 0 < sliceAt (taxableIncome input) b

instance decReceivesSlice (input : TaxComputationInput) (b : TaxBracket) :
    Decidable (receivesSlice input b) :=
  inferInstanceAs (Decidable
    (taxableIncome input > b.income_bracket_min ∧ 0 < sliceAt (taxableIncome input) b))

/-- The tax rate of the last element of a bracket list, or the default d when
the list is empty; mirrors the repeated overwriting of marginalRate in the
source loop. -/
def lastRate (l : List TaxBracket) (d : ℚ) : ℚ :=
  match l with
  | [] => d
  | [b] => b.tax_rate
  | _ :: t => lastRate t d

/-- The two-bracket table of the spec example: (0, 10000, 10 percent) and
(10000, unbounded, 20 percent). -/
def exampleBrackets : List TaxBracket :=
  [⟨0, some 10000, 10⟩, ⟨10000, none, 20⟩]

/-- The spec example input: gross income 15000, no deductions, no pension. -/
def exampleInput15000 : TaxComputationInput :=
  { grossIncome := 15000
    additionalDeductions := 0
    standardDeduction := 0
    brackets := exampleBrackets
    statutoryPensionRatePercent := 0
    statutoryPensionAnnualCap := none }

/-- Zero gross income together with a bracket whose lower bound is negative:
the loop still finds taxableIncome = 0 above that lower bound. -/
def negMinInput : TaxComputationInput :=
  { grossIncome := 0
    additionalDeductions := 0
    standardDeduction := 0
    brackets := [⟨-100, none, 10⟩]
    statutoryPensionRatePercent := 0
    statutoryPensionAnnualCap := none }

/-- A single bracket with a negative tax rate, gross income 0. -/
def negRateInput0 : TaxComputationInput :=
  { grossIncome := 0
    additionalDeductions := 0
    standardDeduction := 0
    brackets := [⟨0, none, -10⟩]
    statutoryPensionRatePercent := 0
    statutoryPensionAnnualCap := none }

/-- The same negative-rate bracket, gross income 100. -/
def negRateInput100 : TaxComputationInput :=
  { grossIncome := 100
    additionalDeductions := 0
    standardDeduction := 0
    brackets := [⟨0, none, -10⟩]
    statutoryPensionRatePercent := 0
    statutoryPensionAnnualCap := none }

/-- Two overlapping brackets sharing income_bracket_min = 0 with different
rates, in the order 10 percent then 20 percent, gross income 100. -/
def dupMinInputA : TaxComputationInput :=
  { grossIncome := 100
    additionalDeductions := 0
    standardDeduction := 0
    brackets := [⟨0, none, 10⟩, ⟨0, none, 20⟩]
    statutoryPensionRatePercent := 0
    statutoryPensionAnnualCap := none }

/-- The same two equal-min brackets in the opposite order. -/
def dupMinInputB : TaxComputationInput :=
  { grossIncome := 100
    additionalDeductions := 0
    standardDeduction := 0
    brackets := [⟨0, none, 20⟩, ⟨0, none, 10⟩]
    statutoryPensionRatePercent := 0
    statutoryPensionAnnualCap := none }

/-- Negative gross income example used to witness the clamping behaviour. -/
def negIncomeInput : TaxComputationInput :=
  { grossIncome := -5
    additionalDeductions := 0
    standardDeduction := 3
    brackets := exampleBrackets
    statutoryPensionRatePercent := 0
    statutoryPensionAnnualCap := none }

end Tax

namespace TaxJS

/-- A JavaScript number: NaN, one of the two infinities, or a finite value
(modelled as an exact rational; -0 is identified with 0, which is harmless
here because the source never distinguishes them). -/
inductive JSNum where
  | nan
  | posInf
  | negInf
  | fin (q : ℚ)
deriving DecidableEq, Repr

/-- Unary minus. -/
def jsNeg : JSNum → JSNum
  | .nan => .nan
  | .posInf => .negInf
  | .negInf => .posInf
  | .fin q => .fin (-q)

/-- IEEE-754 addition as exposed by JavaScript, ignoring rounding (values are
exact rationals): NaN propagates and opposite infinities give NaN. -/
def jsAdd : JSNum → JSNum → JSNum
  | .nan, _ => .nan
  | _, .nan => .nan
  | .posInf, .negInf => .nan
  | .negInf, .posInf => .nan
  | .posInf, _ => .posInf
  | _, .posInf => .posInf
  | .negInf, _ => .negInf
  | _, .negInf => .negInf
  | .fin a, .fin b => .fin (a + b)

def jsSub (a b : JSNum) : JSNum := jsAdd a (jsNeg b)

/-- Multiplication: NaN propagates and infinity times zero gives NaN. -/
def jsMul : JSNum → JSNum → JSNum
  | .nan, _ => .nan
  | _, .nan => .nan
  | .posInf, .posInf => .posInf
  | .posInf, .negInf => .negInf
  | .negInf, .posInf => .negInf
  | .negInf, .negInf => .posInf
  | .posInf, .fin q => if 0 < q then .posInf else if q < 0 then .negInf else .nan
  | .fin q, .posInf => if 0 < q then .posInf else if q < 0 then .negInf else .nan
  | .negInf, .fin q => if 0 < q then .negInf else if q < 0 then .posInf else .nan
  | .fin q, .negInf => if 0 < q then .negInf else if q < 0 then .posInf else .nan
  | .fin a, .fin b => .fin (a * b)

/-- Division: NaN propagates, infinity over infinity and 0/0 give NaN, a
nonzero finite value over zero gives a signed infinity, a finite value over an
infinity gives 0. -/
def jsDiv : JSNum → JSNum → JSNum
  | .nan, _ => .nan
  | _, .nan => .nan
  | .posInf, .posInf => .nan
  | .posInf, .negInf => .nan
  | .negInf, .posInf => .nan
  | .negInf, .negInf => .nan
  | .posInf, .fin q => if q < 0 then .negInf else .posInf
  | .negInf, .fin q => if q < 0 then .posInf else .negInf
  | .fin _, .posInf => .fin 0
  | .fin _, .negInf => .fin 0
  | .fin a, .fin b =>
    if b = 0 then (if a = 0 then .nan else if 0 < a then .posInf else .negInf)
    else .fin (a / b)

/-- The strict less-than comparison: any comparison with NaN is false. -/
def jsLt : JSNum → JSNum → Bool
  | .nan, _ => false
  | _, .nan => false
  | .negInf, .negInf => false
  | .negInf, _ => true
  | _, .negInf => false
  | .posInf, _ => false
  | _, .posInf => true
  | .fin a, .fin b => decide (a < b)

def jsGt (a b : JSNum) : Bool := jsLt b a

/-- Math.min: NaN if either argument is NaN, otherwise the smaller argument. -/
def jsMin (a b : JSNum) : JSNum :=
  if a = .nan ∨ b = .nan then .nan else if jsLt b a then b else a

/-- Math.max: NaN if either argument is NaN, otherwise the larger argument. -/
def jsMax (a b : JSNum) : JSNum :=
  if a = .nan ∨ b = .nan then .nan else if jsLt a b then b else a

/-- isFinite. -/
def jsFinite : JSNum → Bool
  | .fin _ => true
  | _ => false

/-- The JavaScript idiom v || 0 on numbers: NaN and 0 (the falsy numbers) are
replaced by 0; infinities are truthy and pass through. -/
def or0 (v : JSNum) : JSNum := if v = .nan ∨ v = .fin 0 then .fin 0 else v

/-- field || 0 where the field may be absent (undefined is falsy). -/
def numOr0 : Option JSNum → JSNum
  | none => .fin 0
  | some v => or0 v

/-- A raw field occurrence in numeric position (comparison or division), where
JavaScript coerces an absent value (undefined) to NaN. -/
def rawNum : Option JSNum → JSNum
  | none => .nan
  | some v => v

/-- Bracket record over JavaScript numbers. -/
structure TaxBracket where
  income_bracket_min : JSNum
  income_bracket_max : Option JSNum
  tax_rate : JSNum
deriving DecidableEq, Repr

/-- Input record over JavaScript numbers; every numeric field may be absent. -/
structure TaxComputationInput where
  grossIncome : Option JSNum
  additionalDeductions : Option JSNum
  standardDeduction : Option JSNum
  brackets : List TaxBracket
  statutoryPensionRatePercent : Option JSNum
  statutoryPensionAnnualCap : Option JSNum
deriving DecidableEq, Repr

structure BreakdownEntry where
  income_bracket_min : JSNum
  income_bracket_max : Option JSNum
  tax_rate : JSNum
  taxable_at_this_bracket : JSNum
  tax_at_this_bracket : JSNum
deriving DecidableEq, Repr

structure TaxComputationResult where
  deductions : JSNum
  taxableIncome : JSNum
  taxOwed : JSNum
  effectiveRate : JSNum
  marginalRate : JSNum
  statutoryPension : JSNum
  breakdown : List BreakdownEntry
  deductionsCapped : Bool
  uncappedDeductions : JSNum
deriving DecidableEq, Repr

/-- Source: pension = Math.min(isFinite(rawPension) ? rawPension : 0,
cap ?? Infinity), with rawPension = (grossIncome || 0) * ((rate || 0) / 100).
Note the nullish coalescing: an absent cap becomes Infinity but a NaN cap is
kept. -/
def pension (input : TaxComputationInput) : JSNum :=
  let pensionRate := jsDiv (numOr0 input.statutoryPensionRatePercent) (.fin 100)
  let rawPension := jsMul (numOr0 input.grossIncome) pensionRate
  jsMin (if jsFinite rawPension then rawPension else .fin 0)
    (input.statutoryPensionAnnualCap.getD .posInf)

def uncappedDeductions (input : TaxComputationInput) : JSNum :=
  jsMax (.fin 0)
    (jsAdd (jsAdd (numOr0 input.standardDeduction) (numOr0 input.additionalDeductions))
      (or0 (pension input)))

def totalDeductions (input : TaxComputationInput) : JSNum :=
  jsMin (numOr0 input.grossIncome) (uncappedDeductions input)

def taxableIncome (input : TaxComputationInput) : JSNum :=
  jsMax (.fin 0) (jsSub (numOr0 input.grossIncome) (totalDeductions input))

/-- Order induced by the source comparator (a, b) => a.min - b.min under the
ECMAScript sort contract: a stays weakly before b unless the comparator is
positive (a NaN comparator result counts as 0).  The comparator is
inconsistent when a lower bound is NaN; the stable insertion sort below is
then one deterministic resolution of the implementation-defined order. -/
def bracketRel (a b : TaxBracket) : Prop :=
  jsGt (jsSub a.income_bracket_min b.income_bracket_min) (.fin 0) = false

instance : DecidableRel bracketRel :=
  fun a b => inferInstanceAs (Decidable
    (jsGt (jsSub a.income_bracket_min b.income_bracket_min) (.fin 0) = false))

def sortBrackets (l : List TaxBracket) : List TaxBracket :=
  List.insertionSort bracketRel l

/-- taxableAtThisBracket = Math.min(ti - bracketMin, bracketMax - bracketMin)
with bracketMax = income_bracket_max ?? Infinity. -/
def sliceAt (ti : JSNum) (b : TaxBracket) : JSNum :=
  jsMin (jsSub ti b.income_bracket_min)
    (jsSub (b.income_bracket_max.getD .posInf) b.income_bracket_min)

structure LoopState where
  taxOwed : JSNum
  marginalRate : JSNum
  breakdown : List BreakdownEntry
deriving DecidableEq, Repr

def mkEntry (ti : JSNum) (b : TaxBracket) : BreakdownEntry :=
  { income_bracket_min := b.income_bracket_min
    income_bracket_max := b.income_bracket_max
    tax_rate := b.tax_rate
    taxable_at_this_bracket := sliceAt ti b
    tax_at_this_bracket := jsMul (sliceAt ti b) (jsDiv b.tax_rate (.fin 100)) }

def bracketStep (ti : JSNum) (st : LoopState) (b : TaxBracket) : LoopState :=
  if jsGt ti b.income_bracket_min then
    if jsGt (sliceAt ti b) (.fin 0) then
      { taxOwed := jsAdd st.taxOwed (jsMul (sliceAt ti b) (jsDiv b.tax_rate (.fin 100)))
        marginalRate := b.tax_rate
        breakdown := st.breakdown ++ [mkEntry ti b] }
    else st
  else st

def loopState (input : TaxComputationInput) : LoopState :=
  (sortBrackets input.brackets).foldl (bracketStep (taxableIncome input)) ⟨.fin 0, .fin 0, []⟩

/-- The returned record.  The effective-rate branch compares and divides by the
raw (unnormalized) grossIncome field, exactly as the source does. -/
def assembleResult (input : TaxComputationInput) (st : LoopState) : TaxComputationResult :=
  { deductions := totalDeductions input
    taxableIncome := taxableIncome input
    taxOwed := st.taxOwed
    effectiveRate :=
      if jsGt (rawNum input.grossIncome) (.fin 0) then
        jsMul (jsDiv st.taxOwed (rawNum input.grossIncome)) (.fin 100)
      else .fin 0
    marginalRate := st.marginalRate
    statutoryPension := or0 (pension input)
    breakdown := st.breakdown
    deductionsCapped := jsLt (totalDeductions input) (uncappedDeductions input)
    uncappedDeductions := uncappedDeductions input }

/-- Shallow embedding of calculateProgressiveTax over JavaScript numbers with
possibly-absent input fields. -/
def calculateProgressiveTax (input : TaxComputationInput) : TaxComputationResult :=
  assembleResult input (loopState input)

/-- An input whose grossIncome is positive Infinity (truthy, hence not
normalized away by || 0). -/
def infGrossInput : TaxComputationInput :=
  { grossIncome := some .posInf
    additionalDeductions := none
    standardDeduction := none
    brackets := [⟨.fin 0, none, .fin 10⟩]
    statutoryPensionRatePercent := none
    statutoryPensionAnnualCap := none }

end TaxJS

set_option maxRecDepth 8000

namespace Tax

/-- C1: on brackets [(0,10000,10 percent),(10000,unbounded,20 percent)] with no
deductions and no pension, gross income 15000 yields taxable income 15000, a
breakdown taxing 10000 at 10 percent for 1000 and then 5000 at 20 percent for
1000, tax owed 2000, marginal rate 20 and effective rate 2000/15000*100. -/
theorem C1_example_two_brackets :
    (calculateProgressiveTax exampleInput15000).taxableIncome = 15000 ∧
    (calculateProgressiveTax exampleInput15000).breakdown =
      [⟨0, some 10000, 10, 10000, 1000⟩, ⟨10000, none, 20, 5000, 1000⟩] ∧
    (calculateProgressiveTax exampleInput15000).taxOwed = 2000 ∧
    (calculateProgressiveTax exampleInput15000).marginalRate = 20 ∧
    (calculateProgressiveTax exampleInput15000).effectiveRate = 2000 / 15000 * 100 := by
  refine ⟨?_, ?_, ?_, ?_, ?_⟩ <;> with_unfolding_all rfl

theorem uncappedDeductions_nonneg (input : TaxComputationInput) :
    0 ≤ uncappedDeductions input :=
  le_max_left 0 _

/-- C3: for every input the computed taxable income is nonnegative and the
computed deductions never exceed the gross income. -/
theorem C3_taxable_nonneg_deductions_le (input : TaxComputationInput) :
    0 ≤ (calculateProgressiveTax input).taxableIncome ∧
    (calculateProgressiveTax input).deductions ≤ input.grossIncome := by
  constructor
  · show 0 ≤ max 0 (input.grossIncome - totalDeductions input)
    exact le_max_left 0 _
  · show min input.grossIncome (uncappedDeductions input) ≤ input.grossIncome
    exact min_le_left _ _

/-- C4: deductionsCapped holds exactly when the uncapped deductions exceed the
gross income, equivalently when the returned deductions are strictly below the
uncapped deductions. -/
theorem C4_deductionsCapped_iff (input : TaxComputationInput) :
    ((calculateProgressiveTax input).deductionsCapped = true ↔
      (calculateProgressiveTax input).uncappedDeductions > input.grossIncome) ∧
    ((calculateProgressiveTax input).deductionsCapped = true ↔
      (calculateProgressiveTax input).deductions <
        (calculateProgressiveTax input).uncappedDeductions) := by
  have hC : (calculateProgressiveTax input).deductionsCapped
      = decide (totalDeductions input < uncappedDeductions input) := rfl
  have hU : (calculateProgressiveTax input).uncappedDeductions = uncappedDeductions input := rfl
  have hD : (calculateProgressiveTax input).deductions = totalDeductions input := rfl
  rw [hC, hU, hD]
  constructor
  · simp only [decide_eq_true_eq, totalDeductions, min_lt_iff, lt_self_iff_false, or_false,
      gt_iff_lt]
  · simp only [decide_eq_true_eq]

/-- C10: when the gross income is negative the deductions returned equal the
gross income itself (a negative amount) and the taxable income is zero. -/
theorem C10_negative_income (input : TaxComputationInput)
    (h : input.grossIncome < 0) :
    (calculateProgressiveTax input).deductions = input.grossIncome ∧
    (calculateProgressiveTax input).taxableIncome = 0 := by
  have hd : totalDeductions input = input.grossIncome :=
    min_eq_left (le_trans h.le (uncappedDeductions_nonneg input))
  refine ⟨hd, ?_⟩
  show max 0 (input.grossIncome - totalDeductions input) = 0
  rw [hd, sub_self, max_self]

/-- C10 witness: gross income -5 with a positive standard deduction yields
deductions -5 and taxable income 0. -/
theorem C10_negative_income_witness :
    (calculateProgressiveTax negIncomeInput).deductions = negIncomeInput.grossIncome ∧
    (calculateProgressiveTax negIncomeInput).taxableIncome = 0 :=
  C10_negative_income negIncomeInput (by with_unfolding_all decide)

theorem foldl_taxOwed_breakdown_sum (ti : ℚ) :
    ∀ (l : List TaxBracket) (st : LoopState),
      (((l.foldl (bracketStep ti) st).breakdown.map
          (fun e => e.tax_at_this_bracket)).sum) + st.taxOwed
        = (l.foldl (bracketStep ti) st).taxOwed
            + ((st.breakdown.map (fun e => e.tax_at_this_bracket)).sum)
  | [], st => by simp [add_comm]
  | b :: t, st => by
    simp only [List.foldl_cons]
    have ih := foldl_taxOwed_breakdown_sum ti t (bracketStep ti st b)
    by_cases h1 : ti > b.income_bracket_min
    · by_cases h2 : 0 < sliceAt ti b
      · rw [bracketStep, if_pos h1, if_pos h2] at ih ⊢
        simp only [mkEntry, List.map_append, List.sum_append, List.map_cons, List.map_nil,
          List.sum_cons, List.sum_nil] at ih ⊢
        linarith
      · rwa [bracketStep, if_pos h1, if_neg h2] at ih ⊢
    · rwa [bracketStep, if_neg h1] at ih ⊢

/-- C5: the per-bracket taxes listed in the breakdown sum exactly to the
returned taxOwed. -/
theorem C5_breakdown_sums_to_taxOwed (input : TaxComputationInput) :
    ((calculateProgressiveTax input).breakdown.map
      (fun e => e.tax_at_this_bracket)).sum = (calculateProgressiveTax input).taxOwed := by
  have h := foldl_taxOwed_breakdown_sum (taxableIncome input)
    (sortBrackets input.brackets) ⟨0, 0, []⟩
  simpa [loopState] using h

theorem foldl_eq_self_of_no_slice (ti : ℚ) :
    ∀ (l : List TaxBracket) (st : LoopState),
      (∀ b ∈ l, ¬ ti > b.income_bracket_min) → l.foldl (bracketStep ti) st = st
  | [], _, _ => rfl
  | b :: t, st, h => by
    have hb : ¬ ti > b.income_bracket_min := h b (List.mem_cons_self b t)
    rw [List.foldl_cons, bracketStep, if_neg hb]
    exact foldl_eq_self_of_no_slice ti t st (fun c hc => h c (List.mem_cons_of_mem b hc))

theorem taxableIncome_of_nonpos (input : TaxComputationInput)
    (h : input.grossIncome ≤ 0) : taxableIncome input = 0 := by
  have hd : totalDeductions input = input.grossIncome :=
    min_eq_left (le_trans h (uncappedDeductions_nonneg input))
  rw [taxableIncome, hd, sub_self, max_self]

/-- C6 as stated is violated by a bracket whose lower bound is negative: with
gross income 0 the taxable income is 0, yet the slice 0 - (-100) = 100 is
positive, so taxOwed = 10 and the breakdown is nonempty. -/
theorem C6_counterexample :
    negMinInput.grossIncome = 0 ∧
    (calculateProgressiveTax negMinInput).taxOwed = 10 ∧
    (calculateProgressiveTax negMinInput).breakdown ≠ [] := by
  refine ⟨?_, ?_, ?_⟩ <;> with_unfolding_all decide

/-- C6 amended: provided every bracket has a nonnegative lower bound, a
nonpositive gross income yields zero tax and zero effective rate, and a zero
gross income additionally yields zero deductions and an empty breakdown. -/
theorem C6_zero_income_amended (input : TaxComputationInput)
    (hmin : ∀ b ∈ input.brackets, 0 ≤ b.income_bracket_min) :
    (input.grossIncome ≤ 0 →
      (calculateProgressiveTax input).taxOwed = 0 ∧
      (calculateProgressiveTax input).effectiveRate = 0) ∧
    (input.grossIncome = 0 →
      (calculateProgressiveTax input).deductions = 0 ∧
      (calculateProgressiveTax input).breakdown = []) := by
  have hloop : input.grossIncome ≤ 0 →
      loopState input = ⟨0, 0, []⟩ := by
    intro hg
    rw [loopState, taxableIncome_of_nonpos input hg]
    refine foldl_eq_self_of_no_slice 0 _ _ (fun b hb => ?_)
    have hmem : b ∈ input.brackets :=
      (List.perm_insertionSort bracketLE input.brackets).subset hb
    exact not_lt_of_le (hmin b hmem)
  constructor
  · intro hg
    constructor
    · show (loopState input).taxOwed = 0
      rw [hloop hg]
    · show (if input.grossIncome > 0 then _ else (0:ℚ)) = 0
      rw [if_neg (not_lt_of_le hg)]
  · intro hg
    constructor
    · show min input.grossIncome (uncappedDeductions input) = 0
      rw [hg]
      exact min_eq_left (uncappedDeductions_nonneg input)
    · show (loopState input).breakdown = []
      rw [hloop hg.le]

/-- C6 witness: with the spec bracket table (all lower bounds nonnegative) and
gross income 0, tax, effective rate and deductions are 0 and the breakdown is
empty. -/
theorem pension_sub_le (i1 i2 : TaxComputationInput)
    (hpr : i1.statutoryPensionRatePercent = i2.statutoryPensionRatePercent)
    (hcap : i1.statutoryPensionAnnualCap = i2.statutoryPensionAnnualCap)
    (h100 : i1.statutoryPensionRatePercent ≤ 100)
    (hg : i1.grossIncome ≤ i2.grossIncome) :
    pension i2 - pension i1 ≤ i2.grossIncome - i1.grossIncome := by
  have hbase : i2.grossIncome * (i1.statutoryPensionRatePercent / 100)
      - i1.grossIncome * (i1.statutoryPensionRatePercent / 100)
      ≤ i2.grossIncome - i1.grossIncome := by
    have heq : i2.grossIncome * (i1.statutoryPensionRatePercent / 100)
        - i1.grossIncome * (i1.statutoryPensionRatePercent / 100)
        = (i2.grossIncome - i1.grossIncome) * i1.statutoryPensionRatePercent / 100 := by
      ring
    have h1 : (i2.grossIncome - i1.grossIncome) * i1.statutoryPensionRatePercent
        ≤ (i2.grossIncome - i1.grossIncome) * 100 :=
      mul_le_mul_of_nonneg_left h100 (by linarith)
    rw [heq, div_le_iff₀ (by norm_num : (0:ℚ) < 100)]
    linarith
  rw [pension, pension, ← hcap, ← hpr]
  rcases hc : i1.statutoryPensionAnnualCap with _ | c
  · exact hbase
  · simp only [min_def]
    split_ifs <;> linarith

theorem uncapped_sub_le (i1 i2 : TaxComputationInput)
    (hsd : i1.standardDeduction = i2.standardDeduction)
    (had : i1.additionalDeductions = i2.additionalDeductions)
    (hpr : i1.statutoryPensionRatePercent = i2.statutoryPensionRatePercent)
    (hcap : i1.statutoryPensionAnnualCap = i2.statutoryPensionAnnualCap)
    (h100 : i1.statutoryPensionRatePercent ≤ 100)
    (hg : i1.grossIncome ≤ i2.grossIncome) :
    uncappedDeductions i2 - uncappedDeductions i1 ≤ i2.grossIncome - i1.grossIncome := by
  have hp := pension_sub_le i1 i2 hpr hcap h100 hg
  rw [uncappedDeductions, uncappedDeductions, ← hsd, ← had]
  simp only [max_def]
  split_ifs <;> linarith

theorem taxableIncome_eq_max_sub_uncapped (input : TaxComputationInput) :
    taxableIncome input = max 0 (input.grossIncome - uncappedDeductions input) := by
  rw [taxableIncome, totalDeductions]
  rcases le_total input.grossIncome (uncappedDeductions input) with h | h
  · rw [min_eq_left h, sub_self, max_self,
      Eq.comm, max_eq_left (by linarith)]
  · rw [min_eq_right h]

theorem taxable_mono (i1 i2 : TaxComputationInput)
    (hsd : i1.standardDeduction = i2.standardDeduction)
    (had : i1.additionalDeductions = i2.additionalDeductions)
    (hpr : i1.statutoryPensionRatePercent = i2.statutoryPensionRatePercent)
    (hcap : i1.statutoryPensionAnnualCap = i2.statutoryPensionAnnualCap)
    (h100 : i1.statutoryPensionRatePercent ≤ 100)
    (hg : i1.grossIncome ≤ i2.grossIncome) :
    taxableIncome i1 ≤ taxableIncome i2 := by
  have hu := uncapped_sub_le i1 i2 hsd had hpr hcap h100 hg
  rw [taxableIncome_eq_max_sub_uncapped, taxableIncome_eq_max_sub_uncapped]
  exact max_le_max le_rfl (by linarith)

theorem sliceAt_mono (b : TaxBracket) {ti1 ti2 : ℚ} (h : ti1 ≤ ti2) :
    sliceAt ti1 b ≤ sliceAt ti2 b := by
  rcases hmx : b.income_bracket_max with _ | mx
  · simp only [sliceAt, hmx]
    linarith
  · simp only [sliceAt, hmx]
    exact min_le_min (by linarith) le_rfl

theorem bracketStep_taxOwed (ti : ℚ) (st : LoopState) (b : TaxBracket) :
    (bracketStep ti st b).taxOwed = st.taxOwed +
      (if ti > b.income_bracket_min ∧ 0 < sliceAt ti b
        then sliceAt ti b * (b.tax_rate / 100) else 0) := by
  rw [bracketStep]
  by_cases h1 : ti > b.income_bracket_min
  · by_cases h2 : 0 < sliceAt ti b
    · rw [if_pos h1, if_pos h2, if_pos ⟨h1, h2⟩]
    · rw [if_pos h1, if_neg h2, if_neg (fun h => h2 h.2), add_zero]
  · rw [if_neg h1, if_neg (fun h => h1 h.1), add_zero]

theorem foldl_taxOwed_mono {ti1 ti2 : ℚ} (hti : ti1 ≤ ti2) :
    ∀ (l : List TaxBracket), (∀ b ∈ l, 0 ≤ b.tax_rate) →
      ∀ (t1 t2 : LoopState), t1.taxOwed ≤ t2.taxOwed →
        (l.foldl (bracketStep ti1) t1).taxOwed ≤ (l.foldl (bracketStep ti2) t2).taxOwed
  | [], _, t1, t2, ht => ht
  | b :: l, hr, t1, t2, ht => by
    simp only [List.foldl_cons]
    refine foldl_taxOwed_mono hti l (fun c hc => hr c (List.mem_cons_of_mem b hc)) _ _ ?_
    have hrate : 0 ≤ b.tax_rate / 100 := by
      have := hr b (List.mem_cons_self b l)
      positivity
    have hs := sliceAt_mono b hti
    rw [bracketStep_taxOwed, bracketStep_taxOwed]
    by_cases hA : ti1 > b.income_bracket_min ∧ 0 < sliceAt ti1 b
    · have hB : ti2 > b.income_bracket_min ∧ 0 < sliceAt ti2 b :=
        ⟨by linarith [hA.1], by linarith [hA.2]⟩
      rw [if_pos hA, if_pos hB]
      have := mul_le_mul_of_nonneg_right hs hrate
      linarith
    · rw [if_neg hA]
      by_cases hB : ti2 > b.income_bracket_min ∧ 0 < sliceAt ti2 b
      · rw [if_pos hB]
        have hpos : 0 ≤ sliceAt ti2 b * (b.tax_rate / 100) :=
          mul_nonneg (by linarith [hB.2]) hrate
        linarith
      · rw [if_neg hB]
        linarith

/-- C2 as stated is violated by a bracket with a negative tax rate: every
shared field agrees and gross income rises from 0 to 100, yet taxOwed falls
from 0 to -10. -/
theorem C2_counterexample :
    negRateInput0.brackets = negRateInput100.brackets ∧
    negRateInput0.standardDeduction = negRateInput100.standardDeduction ∧
    negRateInput0.additionalDeductions = negRateInput100.additionalDeductions ∧
    negRateInput0.statutoryPensionRatePercent = negRateInput100.statutoryPensionRatePercent ∧
    negRateInput0.statutoryPensionAnnualCap = negRateInput100.statutoryPensionAnnualCap ∧
    negRateInput0.grossIncome ≤ negRateInput100.grossIncome ∧
    ¬ (calculateProgressiveTax negRateInput0).taxOwed
        ≤ (calculateProgressiveTax negRateInput100).taxOwed := by
  refine ⟨?_, ?_, ?_, ?_, ?_, ?_, ?_⟩ <;> with_unfolding_all decide

/-- C2 amended: with every bracket rate nonnegative and a statutory pension
rate of at most 100 percent, taxOwed is monotone in grossIncome when all other
fields agree. -/
theorem C2_taxOwed_monotone (i1 i2 : TaxComputationInput)
    (hbr : i1.brackets = i2.brackets)
    (hsd : i1.standardDeduction = i2.standardDeduction)
    (had : i1.additionalDeductions = i2.additionalDeductions)
    (hpr : i1.statutoryPensionRatePercent = i2.statutoryPensionRatePercent)
    (hcap : i1.statutoryPensionAnnualCap = i2.statutoryPensionAnnualCap)
    (hrates : ∀ b ∈ i1.brackets, 0 ≤ b.tax_rate)
    (h100 : i1.statutoryPensionRatePercent ≤ 100)
    (hg : i1.grossIncome ≤ i2.grossIncome) :
    (calculateProgressiveTax i1).taxOwed ≤ (calculateProgressiveTax i2).taxOwed := by
  have hti := taxable_mono i1 i2 hsd had hpr hcap h100 hg
  show (loopState i1).taxOwed ≤ (loopState i2).taxOwed
  rw [loopState, loopState, ← hbr]
  exact foldl_taxOwed_mono hti (sortBrackets i1.brackets)
    (fun b hb => hrates b ((List.perm_insertionSort bracketLE i1.brackets).subset hb))
    _ _ le_rfl

/-- C2 witness: raising the example gross income from 15000 to 20000 does not
decrease taxOwed. -/
theorem C2_taxOwed_monotone_witness :
    (calculateProgressiveTax exampleInput15000).taxOwed ≤
      (calculateProgressiveTax { exampleInput15000 with grossIncome := 20000 }).taxOwed :=
  C2_taxOwed_monotone exampleInput15000 { exampleInput15000 with grossIncome := 20000 }
    rfl rfl rfl rfl rfl (by with_unfolding_all decide) (by with_unfolding_all decide)
    (by with_unfolding_all decide)

theorem sorted_eq_of_perm_of_nodup_mins {l1 l2 : List TaxBracket} (hp : l1.Perm l2)
    (hs1 : l1.Sorted bracketLE) (hs2 : l2.Sorted bracketLE)
    (hnd : (l1.map (fun b => b.income_bracket_min)).Nodup) : l1 = l2 := by
  induction l1 generalizing l2 with
  | nil => exact (List.Perm.eq_nil hp.symm).symm
  | cons a t ih =>
    rcases l2 with _ | ⟨b, t2⟩
    · exact absurd hp.eq_nil (by simp)
    · have hab : a = b := by
        have hma : a ∈ b :: t2 := hp.subset (List.mem_cons_self a t)
        rcases List.mem_cons.mp hma with h | h
        · exact h
        · have hmb : b ∈ a :: t := hp.symm.subset (List.mem_cons_self b t2)
          rcases List.mem_cons.mp hmb with h2 | h2
          · exact h2.symm
          · have hle1 : bracketLE a b := (List.sorted_cons.mp hs1).1 b h2
            have hle2 : bracketLE b a := (List.sorted_cons.mp hs2).1 a h
            have hmin : a.income_bracket_min = b.income_bracket_min := le_antisymm hle1 hle2
            exact List.inj_on_of_nodup_map hnd (List.mem_cons_self a t)
              (List.mem_cons_of_mem a h2) hmin
      subst hab
      have ht : t.Perm t2 := hp.cons_inv
      have hndt : (t.map (fun b => b.income_bracket_min)).Nodup := by
        rw [List.map_cons] at hnd
        exact hnd.of_cons
      rw [ih ht (List.sorted_cons.mp hs1).2 (List.sorted_cons.mp hs2).2 hndt]

theorem sortBrackets_eq_of_perm {l1 l2 : List TaxBracket} (hp : l1.Perm l2)
    (hnd : (l2.map (fun b => b.income_bracket_min)).Nodup) :
    sortBrackets l1 = sortBrackets l2 := by
  refine sorted_eq_of_perm_of_nodup_mins ?_ ?_ ?_ ?_
  · exact (List.perm_insertionSort bracketLE l1).trans
      (hp.trans (List.perm_insertionSort bracketLE l2).symm)
  · exact List.sorted_insertionSort bracketLE l1
  · exact List.sorted_insertionSort bracketLE l2
  · exact ((((List.perm_insertionSort bracketLE l1).trans hp).map
      (fun b => b.income_bracket_min)).nodup_iff).mpr hnd

/-- C7 as stated is violated by two overlapping brackets that share the same
lower bound: swapping them is a permutation, yet the stable sort preserves
their relative order, so marginalRate changes (10 versus 20) and the breakdown
order flips. -/
theorem C7_counterexample :
    dupMinInputB.brackets.Perm dupMinInputA.brackets ∧
    calculateProgressiveTax dupMinInputB ≠ calculateProgressiveTax dupMinInputA := by
  constructor
  · exact List.Perm.swap _ _ _
  · with_unfolding_all decide

/-- C7 amended: permuting the brackets list leaves the whole result unchanged
provided the bracket lower bounds are pairwise distinct (as they are in any
well-formed bracket table, and in the spec example). -/
theorem C7_reorder_invariant (input : TaxComputationInput)
    (brackets' : List TaxBracket)
    (hperm : brackets'.Perm input.brackets)
    (hnd : (input.brackets.map (fun b => b.income_bracket_min)).Nodup) :
    calculateProgressiveTax { input with brackets := brackets' }
      = calculateProgressiveTax input := by
  obtain ⟨g, ad, sd, br, pr, cap⟩ := input
  have hs : sortBrackets brackets' = sortBrackets br := sortBrackets_eq_of_perm hperm hnd
  have hloop : loopState ⟨g, ad, sd, brackets', pr, cap⟩ = loopState ⟨g, ad, sd, br, pr, cap⟩ := by
    show (sortBrackets brackets').foldl
        (bracketStep (taxableIncome ⟨g, ad, sd, brackets', pr, cap⟩)) ⟨0, 0, []⟩
      = (sortBrackets br).foldl
        (bracketStep (taxableIncome ⟨g, ad, sd, br, pr, cap⟩)) ⟨0, 0, []⟩
    rw [hs]
    rfl
  show assembleResult ⟨g, ad, sd, brackets', pr, cap⟩ (loopState ⟨g, ad, sd, brackets', pr, cap⟩)
      = assembleResult ⟨g, ad, sd, br, pr, cap⟩ (loopState ⟨g, ad, sd, br, pr, cap⟩)
  exact congrArg (assembleResult ⟨g, ad, sd, brackets', pr, cap⟩) hloop

/-- C7 witness: the unordered spec bracket table produces the same full result
as the sorted one on the gross income 15000 example. -/
theorem C7_reorder_witness :
    calculateProgressiveTax
        { exampleInput15000 with brackets := [⟨10000, none, 20⟩, ⟨0, some 10000, 10⟩] }
      = calculateProgressiveTax exampleInput15000 :=
  C7_reorder_invariant exampleInput15000 [⟨10000, none, 20⟩, ⟨0, some 10000, 10⟩]
    (List.Perm.swap _ _ _) (by decide)

theorem lastRate_nonempty_default (y : TaxBracket) :
    ∀ (t : List TaxBracket) (d1 d2 : ℚ), lastRate (y :: t) d1 = lastRate (y :: t) d2
  | [], _, _ => rfl
  | z :: t2, d1, d2 => lastRate_nonempty_default z t2 d1 d2

theorem foldl_marginalRate (ti : ℚ) :
    ∀ (l : List TaxBracket) (st : LoopState),
      (l.foldl (bracketStep ti) st).marginalRate
        = lastRate (l.filter
            (fun b => decide (ti > b.income_bracket_min ∧ 0 < sliceAt ti b)))
            st.marginalRate
  | [], _ => rfl
  | b :: l, st => by
    rw [List.foldl_cons, List.filter_cons]
    by_cases hP : ti > b.income_bracket_min ∧ 0 < sliceAt ti b
    · rw [if_pos (by simpa using hP)]
      have hstep : (bracketStep ti st b).marginalRate = b.tax_rate := by
        rw [bracketStep, if_pos hP.1, if_pos hP.2]
      rw [foldl_marginalRate ti l (bracketStep ti st b), hstep]
      rcases hxs : l.filter (fun c => decide (ti > c.income_bracket_min ∧ 0 < sliceAt ti c))
        with _ | ⟨y, ys⟩
      · rw [hxs]
        rfl
      · rw [hxs]
        exact (lastRate_nonempty_default y ys b.tax_rate st.marginalRate)
    · rw [if_neg (by simpa using hP)]
      have hstep : bracketStep ti st b = st := by
        rw [bracketStep]
        by_cases h1 : ti > b.income_bracket_min
        · rw [if_pos h1, if_neg (fun h2 => hP ⟨h1, h2⟩)]
        · rw [if_neg h1]
      rw [hstep, foldl_marginalRate ti l st]

theorem lastRate_spec :
    ∀ (xs : List TaxBracket) (d : ℚ), xs ≠ [] → xs.Pairwise bracketLE →
      ∃ z ∈ xs, (∀ a ∈ xs, bracketLE a z) ∧ lastRate xs d = z.tax_rate
  | [], _, h, _ => absurd rfl h
  | [b], d, _, _ =>
    ⟨b, List.mem_singleton_self b, fun a ha => by
      rw [List.mem_singleton] at ha
      rw [ha]
      exact le_refl b.income_bracket_min, rfl⟩
  | b :: y :: t, d, _, hp => by
    obtain ⟨z, hz, hmax, hrate⟩ := lastRate_spec (y :: t) d (by simp) hp.of_cons
    refine ⟨z, List.mem_cons_of_mem b hz, ?_, hrate⟩
    intro a ha
    rcases List.mem_cons.mp ha with h | h
    · subst h
      exact (List.pairwise_cons.mp hp).1 z hz
    · exact hmax a h

/-- C8: marginalRate is 0 when no bracket receives a positive taxable slice,
and otherwise equals the tax rate of a positive-slice bracket whose lower bound
is greatest among all positive-slice brackets. -/
theorem C8_marginalRate_last_positive_bracket (input : TaxComputationInput) :
    ((∀ b ∈ input.brackets, ¬ receivesSlice input b) →
      (calculateProgressiveTax input).marginalRate = 0) ∧
    (∀ b0 ∈ input.brackets, receivesSlice input b0 →
      ∃ b ∈ input.brackets, receivesSlice input b ∧
        (∀ c ∈ input.brackets, receivesSlice input c →
          c.income_bracket_min ≤ b.income_bracket_min) ∧
        (calculateProgressiveTax input).marginalRate = b.tax_rate) := by
  have hfold : (calculateProgressiveTax input).marginalRate
      = lastRate ((sortBrackets input.brackets).filter
          (fun b => decide (taxableIncome input > b.income_bracket_min
            ∧ 0 < sliceAt (taxableIncome input) b))) 0 := by
    show (loopState input).marginalRate = _
    rw [loopState, foldl_marginalRate]
  constructor
  · intro hnone
    rw [hfold]
    have hfe : (sortBrackets input.brackets).filter
        (fun b => decide (taxableIncome input > b.income_bracket_min
          ∧ 0 < sliceAt (taxableIncome input) b)) = [] := by
      rw [List.filter_eq_nil_iff]
      intro b hb
      have hmem := (List.perm_insertionSort bracketLE input.brackets).subset hb
      simpa [receivesSlice] using hnone b hmem
    rw [hfe]
    rfl
  · intro b0 hb0 hP
    have hb0s : b0 ∈ sortBrackets input.brackets :=
      (List.perm_insertionSort bracketLE input.brackets).symm.subset hb0
    have hmemf : b0 ∈ (sortBrackets input.brackets).filter
        (fun b => decide (taxableIncome input > b.income_bracket_min
          ∧ 0 < sliceAt (taxableIncome input) b)) :=
      List.mem_filter.mpr ⟨hb0s, by simpa [receivesSlice] using hP⟩
    obtain ⟨z, hz, hmax, hrate⟩ := lastRate_spec _ 0 (List.ne_nil_of_mem hmemf)
      ((List.sorted_insertionSort bracketLE input.brackets).filter _)
    have hzmem : z ∈ sortBrackets input.brackets := (List.mem_filter.mp hz).1
    have hzP : receivesSlice input z := by
      have := (List.mem_filter.mp hz).2
      simpa [receivesSlice] using this
    refine ⟨z, (List.perm_insertionSort bracketLE input.brackets).subset hzmem, hzP, ?_, ?_⟩
    · intro c hc hcP
      have hcs : c ∈ sortBrackets input.brackets :=
        (List.perm_insertionSort bracketLE input.brackets).symm.subset hc
      exact hmax c (List.mem_filter.mpr ⟨hcs, by simpa [receivesSlice] using hcP⟩)
    · rw [hfold]
      exact hrate

/-- C8 witness: with gross income 0 no bracket receives a slice and the
marginal rate is 0; on the 15000 example the positive-slice bracket of
greatest lower bound exists and carries the returned marginal rate 20. -/
theorem C8_marginalRate_witness :
    (calculateProgressiveTax { exampleInput15000 with grossIncome := 0 }).marginalRate = 0 ∧
    ∃ b ∈ exampleInput15000.brackets, receivesSlice exampleInput15000 b ∧
      (∀ c ∈ exampleInput15000.brackets, receivesSlice exampleInput15000 c →
        c.income_bracket_min ≤ b.income_bracket_min) ∧
      (calculateProgressiveTax exampleInput15000).marginalRate = b.tax_rate :=
  ⟨(C8_marginalRate_last_positive_bracket { exampleInput15000 with grossIncome := 0 }).1
      (by with_unfolding_all decide),
    (C8_marginalRate_last_positive_bracket exampleInput15000).2 ⟨10000, none, 20⟩
      (by decide) (by with_unfolding_all decide)⟩

theorem C6_zero_income_witness :
    ((calculateProgressiveTax { exampleInput15000 with grossIncome := 0 }).taxOwed = 0 ∧
      (calculateProgressiveTax { exampleInput15000 with grossIncome := 0 }).effectiveRate = 0) ∧
    ((calculateProgressiveTax { exampleInput15000 with grossIncome := 0 }).deductions = 0 ∧
      (calculateProgressiveTax { exampleInput15000 with grossIncome := 0 }).breakdown = []) := by
  have h := C6_zero_income_amended { exampleInput15000 with grossIncome := 0 }
    (by with_unfolding_all decide)
  exact ⟨h.1 (by with_unfolding_all decide), h.2 (by with_unfolding_all decide)⟩

end Tax

namespace TaxJS

/-- C9 as stated is violated by a positive-Infinity grossIncome: Infinity is a
non-finite number, yet it is truthy, so || 0 does not replace it with 0 and
the computation returns taxOwed = Infinity instead of the 0 obtained when the
field is replaced by 0. -/
theorem C9_counterexample :
    jsFinite (rawNum infGrossInput.grossIncome) = false ∧
    calculateProgressiveTax infGrossInput
      ≠ calculateProgressiveTax { infGrossInput with grossIncome := some (.fin 0) } := by
  constructor
  · rfl
  · with_unfolding_all decide

/-- C9 amended: the function is total, and an absent or NaN numeric field
(grossIncome, standardDeduction, additionalDeductions,
statutoryPensionRatePercent) yields the same result as the field set to 0;
infinite field values are not coerced. -/
theorem C9_absent_nan_coerced (input : TaxComputationInput) :
    ((input.grossIncome = none ∨ input.grossIncome = some .nan) →
      calculateProgressiveTax input
        = calculateProgressiveTax { input with grossIncome := some (.fin 0) }) ∧
    ((input.standardDeduction = none ∨ input.standardDeduction = some .nan) →
      calculateProgressiveTax input
        = calculateProgressiveTax { input with standardDeduction := some (.fin 0) }) ∧
    ((input.additionalDeductions = none ∨ input.additionalDeductions = some .nan) →
      calculateProgressiveTax input
        = calculateProgressiveTax { input with additionalDeductions := some (.fin 0) }) ∧
    ((input.statutoryPensionRatePercent = none ∨ input.statutoryPensionRatePercent = some .nan) →
      calculateProgressiveTax input
        = calculateProgressiveTax { input with statutoryPensionRatePercent := some (.fin 0) }) := by
  obtain ⟨g, ad, sd, br, pr, cap⟩ := input
  refine ⟨?_, ?_, ?_, ?_⟩ <;> rintro (h | h) <;> subst h <;> rfl

/-- C9 witness: on the Infinity example with the grossIncome field removed,
treating the absent field as 0 is exact. -/
theorem C9_absent_nan_coerced_witness :
    calculateProgressiveTax { infGrossInput with grossIncome := none }
      = calculateProgressiveTax
          { { infGrossInput with grossIncome := none } with grossIncome := some (.fin 0) } :=
  (C9_absent_nan_coerced { infGrossInput with grossIncome := none }).1 (Or.inl rfl)

end TaxJS
